import Mathlib

/-!
# Verification of `fb-user-filestore-client` (args-object client)

A shallow embedding of the Form Builder user-filestore client
(`fb-user-filestore-client.js`, args-object calling convention) together
with proofs about its behaviour.

Modelling conventions:
* A JavaScript primitive field value is a `JsVal` (number or string);
  numbers are modelled as `Int` (no claim touches non-integer numbers).
* Presence of an object key is modelled with `Option`: `none` means the
  key is absent (reads as `undefined`), `some v` means present with
  value `v`.
* A `Buffer` is a `List Nat` of bytes (each `< 256`); a JavaScript
  string, where its code units matter, is a `List Nat` of Unicode
  scalar values.
* Promises are `Except`: `.ok` models resolution, `.error` rejection.
-/
namespace FBUserFileStoreClient

/-- A primitive JavaScript value as it occurs in policy/options/result
fields: a number or a string. -/
inductive JsVal where
  | num (n : Int)
  | str (s : String)
  deriving DecidableEq, Repr

/-- JavaScript truthiness of a `JsVal`: `0` and `""` are falsy, every
other number or string is truthy. -/
def JsVal.truthy : JsVal → Bool
  | .num n => n != 0
  | .str s => s != ""

/-- Truthiness of an optional object field: an absent key reads as
`undefined`, which is falsy. -/
def fieldTruthy : Option JsVal → Bool
  | none => false
  | some v => v.truthy

/-- An `UploadPolicy` object: the three keys `store` reads, each
possibly absent.  `allowed_types` is a JavaScript array of strings. -/
structure Policy where
  max_size : Option JsVal
  expires : Option JsVal
  allowed_types : Option (List String)
  deriving DecidableEq, Repr

/-- `defaultMaxSize = 10 * 1024 * 1024` (module-level default). -/
def defaultMaxSize : Int := 10 * 1024 * 1024

/-- `defaultExpires = 28` (module-level default of the args-object
client). -/
def defaultExpires : Int := 28

/-- JavaScript `x || y` for an optional field `x`: the field's value
when present and truthy, otherwise `y`. -/
def jsOr (x : Option JsVal) (y : JsVal) : JsVal :=
  match x with
  | some v => if v.truthy then v else y
  | none => y

/-- Constructor options object `{maxSize?, expires?}`. -/
structure Options where
  maxSize : Option JsVal
  expires : Option JsVal
  deriving DecidableEq, Repr

/-- The empty options object, the constructor's default for `options`. -/
def Options.empty : Options := ⟨none, none⟩

/-- The client instance state established by the constructor:
the four required fields stored by the superclass plus
`this.maxSize = options.maxSize || defaultMaxSize` and
`this.expires = options.expires || defaultExpires`. -/
structure Client where
  serviceSecret : String
  serviceToken : String
  serviceSlug : String
  userFileStoreUrl : String
  maxSize : JsVal
  expires : JsVal
  deriving DecidableEq, Repr

/-- A configuration error thrown while constructing a client, as a
`(code, message)` pair of the `FBUserFileStoreClientError`. -/
structure CtorError where
  code : String
  message : String
  deriving DecidableEq, Repr

/-- Modelled from the spec: the argument validation done by the
`FBJWTClient` super-constructor (the base-client package is not part of
this repository's sources).  Per §4.1, a missing argument fails with
the first applicable error in the precedence order
secret, token, slug, base URL, with the stable codes and messages
listed there; a missing positional argument is `none`. -/
def validateCtorArgs (serviceSecret serviceToken serviceSlug userFileStoreUrl :
    Option String) : Option CtorError :=
  if serviceSecret.isNone then
    some ⟨"ENOSERVICESECRET", "No service secret passed to client"⟩
  else if serviceToken.isNone then
    some ⟨"ENOSERVICETOKEN", "No service token passed to client"⟩
  else if serviceSlug.isNone then
    some ⟨"ENOSERVICESLUG", "No service slug passed to client"⟩
  else if userFileStoreUrl.isNone then
    some ⟨"ENOMICROSERVICEURL", "No microservice url passed to client"⟩
  else
    none

/-- The constructor body after successful super-validation:
`this.maxSize = options.maxSize || defaultMaxSize;
this.expires = options.expires || defaultExpires`. -/
def mkClient (serviceSecret serviceToken serviceSlug userFileStoreUrl : String)
    (options : Options) : Client :=
  { serviceSecret := serviceSecret
    serviceToken := serviceToken
    serviceSlug := serviceSlug
    userFileStoreUrl := userFileStoreUrl
    maxSize := jsOr options.maxSize (.num defaultMaxSize)
    expires := jsOr options.expires (.num defaultExpires) }

/-- The policy-normalisation block of `store`:
`policy = Object.assign({}, policy)` (shallow copy),
`if (!policy.max_size) policy.max_size = this.maxSize`,
`if (!policy.expires) policy.expires = this.expires`,
`if (policy.allowed_types && policy.allowed_types.length === 0)
 delete policy.allowed_types` (a JavaScript array is truthy even when
empty, so presence alone satisfies the first conjunct). -/
def normalizePolicy (c : Client) (policy : Policy) : Policy :=
  let p1 : Policy :=
    if fieldTruthy policy.max_size then policy
    else { policy with max_size := some c.maxSize }
  let p2 : Policy :=
    if fieldTruthy p1.expires then p1
    else { p1 with expires := some c.expires }
  match p2.allowed_types with
  | some ts => if ts.length = 0 then { p2 with allowed_types := none } else p2
  | none => p2

/-! ## Base64 (Node `buf.toString('base64')` / `Buffer.from(s, 'base64')`) -/
/-- The standard base64 alphabet used by Node buffers. -/
def base64Chars : List Char :=
  "ABCDEFGHIJKLMNOPQRSTUVWXYZabcdefghijklmnopqrstuvwxyz0123456789+/".toList

/-- The base64 character of a sextet value (`n < 64`). -/
def sextetChar (n : Nat) : Char := base64Chars.getD n '='

/-- The sextet value of a base64 character, `none` for characters
outside the alphabet (such as the padding character). -/
def charSextet (c : Char) : Option Nat :=
  base64Chars.findIdx? (fun d => d == c)

/-- Base64-encode a byte list three bytes at a time, padding the final
chunk with `=`, exactly as `buf.toString('base64')` does. -/
def b64EncodeChunks : List Nat → List Char
  | [] => []
  | [a] => [sextetChar (a / 4), sextetChar (a % 4 * 16), '=', '=']
  | [a, b] => [sextetChar (a / 4), sextetChar (a % 4 * 16 + b / 16),
      sextetChar (b % 16 * 4), '=']
  | a :: b :: c :: rest =>
      sextetChar (a / 4) :: sextetChar (a % 4 * 16 + b / 16) ::
      sextetChar (b % 16 * 4 + c / 64) :: sextetChar (c % 64) ::
      b64EncodeChunks rest

/-- `buf.toString('base64')`. -/
def b64Encode (bytes : List Nat) : String := ⟨b64EncodeChunks bytes⟩

/-- The sextet values of a base64 string; characters outside the
alphabet (padding included) are skipped, as Node's lenient decoder
does. -/
def b64Sextets (cs : List Char) : List Nat := cs.filterMap charSextet

/-- Reassemble bytes from sextets four at a time; a final chunk of two
or three sextets yields one or two bytes, a lone trailing sextet none. -/
def sextetsToBytes : List Nat → List Nat
  | s1 :: s2 :: s3 :: s4 :: rest =>
      (s1 * 4 + s2 / 16) :: (s2 % 16 * 16 + s3 / 4) :: (s3 % 4 * 64 + s4) ::
      sextetsToBytes rest
  | [s1, s2] => [s1 * 4 + s2 / 16]
  | [s1, s2, s3] => [s1 * 4 + s2 / 16, s2 % 16 * 16 + s3 / 4]
  | _ => []

/-- `Buffer.from(s, 'base64')` as a byte list. -/
def b64Decode (s : String) : List Nat := sextetsToBytes (b64Sextets s.toList)

/-! ## UTF-8 (Node `buf.toString()` and `Buffer.from(string)`)

Node decodes a buffer to a string with the WHATWG UTF-8 decoder,
emitting `U+FFFD` for each maximal invalid subpart; `Buffer.from`
applied to a string UTF-8-encodes it.  JavaScript strings are modelled
as lists of Unicode scalar values. -/
/-- Is `b` a UTF-8 continuation byte (`0x80..0xBF`)? -/
def contB (b : Nat) : Bool := decide (0x80 ≤ b ∧ b ≤ 0xBF)

/-- Valid second byte after a three-byte leading byte `b1`
(`0xE0..0xEF`): the restricted ranges exclude overlong forms and
surrogates. -/
def lead3Cont (b1 b2 : Nat) : Bool :=
  if b1 = 0xE0 then decide (0xA0 ≤ b2 ∧ b2 ≤ 0xBF)
  else if b1 = 0xED then decide (0x80 ≤ b2 ∧ b2 ≤ 0x9F)
  else contB b2

/-- Valid second byte after a four-byte leading byte `b1`
(`0xF0..0xF4`): the restricted ranges exclude overlong forms and
code points above `U+10FFFF`. -/
def lead4Cont (b1 b2 : Nat) : Bool :=
  if b1 = 0xF0 then decide (0x90 ≤ b2 ∧ b2 ≤ 0xBF)
  else if b1 = 0xF4 then decide (0x80 ≤ b2 ∧ b2 ≤ 0x8F)
  else contB b2

/-- The WHATWG UTF-8 decoder: returns the decoded scalar values and a
flag that is `true` exactly when the input was valid UTF-8.  On an
invalid or truncated sequence it emits `U+FFFD`, clears the flag and
resumes after the maximal subpart consumed. -/
def utf8DecodeAux : List Nat → List Nat × Bool
  | [] => ([], true)
  | b1 :: r1 =>
    if b1 < 0x80 then
      (b1 :: (utf8DecodeAux r1).1, (utf8DecodeAux r1).2)
    else if 0xC2 ≤ b1 ∧ b1 ≤ 0xDF then
      match r1 with
      | [] => ([0xFFFD], false)
      | b2 :: r2 =>
        if contB b2 then
          (((b1 - 0xC0) * 0x40 + (b2 - 0x80)) :: (utf8DecodeAux r2).1,
            (utf8DecodeAux r2).2)
        else
          (0xFFFD :: (utf8DecodeAux (b2 :: r2)).1, false)
    else if 0xE0 ≤ b1 ∧ b1 ≤ 0xEF then
      match r1 with
      | [] => ([0xFFFD], false)
      | b2 :: r2 =>
        if lead3Cont b1 b2 then
          match r2 with
          | [] => ([0xFFFD], false)
          | b3 :: r3 =>
            if contB b3 then
              (((b1 - 0xE0) * 0x1000 + (b2 - 0x80) * 0x40 + (b3 - 0x80)) ::
                  (utf8DecodeAux r3).1,
                (utf8DecodeAux r3).2)
            else
              (0xFFFD :: (utf8DecodeAux (b3 :: r3)).1, false)
        else
          (0xFFFD :: (utf8DecodeAux (b2 :: r2)).1, false)
    else if 0xF0 ≤ b1 ∧ b1 ≤ 0xF4 then
      match r1 with
      | [] => ([0xFFFD], false)
      | b2 :: r2 =>
        if lead4Cont b1 b2 then
          match r2 with
          | [] => ([0xFFFD], false)
          | b3 :: r3 =>
            if contB b3 then
              match r3 with
              | [] => ([0xFFFD], false)
              | b4 :: r4 =>
                if contB b4 then
                  (((b1 - 0xF0) * 0x40000 + (b2 - 0x80) * 0x1000 +
                      (b3 - 0x80) * 0x40 + (b4 - 0x80)) ::
                      (utf8DecodeAux r4).1,
                    (utf8DecodeAux r4).2)
                else
                  (0xFFFD :: (utf8DecodeAux (b4 :: r4)).1, false)
            else
              (0xFFFD :: (utf8DecodeAux (b3 :: r3)).1, false)
        else
          (0xFFFD :: (utf8DecodeAux (b2 :: r2)).1, false)
    else
      (0xFFFD :: (utf8DecodeAux r1).1, false)
termination_by l => l.length
decreasing_by all_goals simp_wf <;> omega

/-- `buf.toString()`: the decoded scalar values, `U+FFFD` standing in
for invalid subparts. -/
def utf8Decode (bytes : List Nat) : List Nat := (utf8DecodeAux bytes).1

/-- `bytes` is valid UTF-8: the decoder accepts it without emitting a
replacement character. -/
def validUtf8 (bytes : List Nat) : Bool := (utf8DecodeAux bytes).2

/-- The UTF-8 encoding of one Unicode scalar value. -/
def utf8EncodeChar (c : Nat) : List Nat :=
  if c < 0x80 then [c]
  else if c < 0x800 then [0xC0 + c / 0x40, 0x80 + c % 0x40]
  else if c < 0x10000 then
    [0xE0 + c / 0x1000, 0x80 + c / 0x40 % 0x40, 0x80 + c % 0x40]
  else
    [0xF0 + c / 0x40000, 0x80 + c / 0x1000 % 0x40, 0x80 + c / 0x40 % 0x40,
      0x80 + c % 0x40]

/-- `Buffer.from(string)`: the UTF-8 encoding of a scalar-value list. -/
def utf8Encode : List Nat → List Nat
  | [] => []
  | c :: cs => utf8EncodeChar c ++ utf8Encode cs

/-- Is `c` a Unicode scalar value (a code point that is not a
surrogate)? -/
def isScalar (c : Nat) : Bool := decide (c < 0x110000 ∧ ¬(0xD800 ≤ c ∧ c ≤ 0xDFFF))

/-! ## The client operations -/
/-- The endpoint url templates of the module. -/
structure Endpoints where
  fetch : String
  store : String
  deriving DecidableEq, Repr

/-- `endpoints = {fetch: '/service/:serviceSlug/user/:userId/:fingerprint',
store: '/service/:serviceSlug/user/:userId'}`. -/
def endpoints : Endpoints :=
  { fetch := "/service/:serviceSlug/user/:userId/:fingerprint"
    store := "/service/:serviceSlug/user/:userId" }

/-- The `file` argument of `store`: a `Buffer` of bytes or a JavaScript
string (as scalar values). -/
inductive FileArg where
  | buf (bytes : List Nat)
  | str (cps : List Nat)
  deriving DecidableEq, Repr

/-- The file-shaping step of `store` before base64 encoding:
`if (!file.buffer) file = Buffer.from(file)`.  A `Buffer` has a truthy
`.buffer` property and passes through unchanged; a string is
UTF-8-encoded by `Buffer.from`. -/
def fileToBytes : FileArg → List Nat
  | .buf bytes => bytes
  | .str cps => utf8Encode cps

/-- The args object of `store`:
`{userId, userToken, file, policy}`. -/
structure StoreArgs where
  userId : String
  userToken : String
  file : FileArg
  policy : Policy
  deriving DecidableEq, Repr

/-- A result object resolved by `sendPost`, as `store` inspects it: the
`fingerprint` field (possibly absent) plus all remaining fields, kept so
that returning the object verbatim is expressible. -/
structure SendPostResult where
  fingerprint : Option JsVal
  other : List (String × JsVal)
  deriving DecidableEq, Repr

/-- The url context of the store request: `{serviceSlug, userId}`. -/
structure StoreContext where
  serviceSlug : String
  userId : String
  deriving DecidableEq, Repr

/-- The payload of the store request:
`{encrypted_user_id_and_token, file, policy}`. -/
structure StorePayload where
  encrypted_user_id_and_token : String
  file : String
  policy : Policy
  deriving DecidableEq, Repr

/-- The single options argument handed to `sendPost`:
`{url, context, payload}`. -/
structure StoreRequest where
  url : String
  context : StoreContext
  payload : StorePayload
  deriving DecidableEq, Repr

/-- An application error raised through `throwRequestError(code,
message)`.  Modelled from the spec (§7): the base client's shared error
type carries the numeric code and the message given at the raise site. -/
structure RequestError where
  code : Int
  message : String
  deriving DecidableEq, Repr

/-- The request `store` hands to `sendPost`: the store endpoint
template, `context = {serviceSlug, userId}`, and the payload with the
base64-encoded file and the normalised policy.
`encryptUserIdAndToken` is the inherited encryption collaborator,
passed in as a function. -/
def storeRequest (c : Client) (encrypt : String → String → String)
    (args : StoreArgs) : StoreRequest :=
  { url := endpoints.store
    context := { serviceSlug := c.serviceSlug, userId := args.userId }
    payload :=
      { encrypted_user_id_and_token := encrypt args.userId args.userToken
        file := b64Encode (fileToBytes args.file)
        policy := normalizePolicy c args.policy } }

/-- `store(args, logger)`: build the request, delegate to `sendPost`
(the injected transport, which resolves or rejects), then inspect the
result: `if (!result.fingerprint) this.throwRequestError(500,
'ENOFINGERPRINT'); return result`. -/
def store (c : Client) (encrypt : String → String → String)
    (sendPost : StoreRequest → Except RequestError SendPostResult)
    (args : StoreArgs) : Except RequestError SendPostResult :=
  match sendPost (storeRequest c encrypt args) with
  | .error e => .error e
  | .ok result =>
      if fieldTruthy result.fingerprint then .ok result
      else .error { code := 500, message := "ENOFINGERPRINT" }

/-- The args object of `fetch`: `{userId, userToken, fingerprint}`. -/
structure FetchArgs where
  userId : String
  userToken : String
  fingerprint : String
  deriving DecidableEq, Repr

/-- The url context of the fetch request:
`{serviceSlug, userId, fingerprint}`. -/
structure FetchContext where
  serviceSlug : String
  userId : String
  fingerprint : String
  deriving DecidableEq, Repr

/-- The single options argument handed to `sendGet`. -/
structure FetchRequest where
  url : String
  context : FetchContext
  payload : String
  deriving DecidableEq, Repr

/-- A result object resolved by `sendGet`: a mapping whose `file` field
holds the base64-encoded file content. -/
structure SendGetResult where
  file : String
  deriving DecidableEq, Repr

/-- The request `fetch` hands to `sendGet`: the fetch endpoint
template, `context = {serviceSlug, userId, fingerprint}` and
`payload = {encrypted_user_id_and_token}`. -/
def fetchRequest (c : Client) (encrypt : String → String → String)
    (args : FetchArgs) : FetchRequest :=
  { url := endpoints.fetch
    context := { serviceSlug := c.serviceSlug, userId := args.userId
                 fingerprint := args.fingerprint }
    payload := encrypt args.userId args.userToken }

/-- `fetch(args, logger)`: delegate to `sendGet`, then
`Buffer.from(json.file, 'base64').toString()` — base64-decode the
`file` field and decode the bytes as UTF-8 into a string (returned as
its scalar values). -/
def fetch (c : Client) (encrypt : String → String → String)
    (sendGet : FetchRequest → Except RequestError SendGetResult)
    (args : FetchArgs) : Except RequestError (List Nat) :=
  match sendGet (fetchRequest c encrypt args) with
  | .error e => .error e
  | .ok json => .ok (utf8Decode (b64Decode json.file))

/-- A rejection reason of a promise in this client: an application
error, or a raw filesystem error from `readFile` (not remapped). -/
inductive PromiseErr where
  | request (e : RequestError)
  | fs (message : String)
  deriving DecidableEq, Repr

/-- A value a promise of this client can resolve with: a `store` result
object, or `undefined`. -/
inductive StoreOutcomeVal where
  | result (r : SendPostResult)
  | undef
  deriving DecidableEq, Repr

/-- Decidable equality of promise outcomes. -/
def Except.decEq {ε α : Type} [DecidableEq ε] [DecidableEq α] :
    DecidableEq (Except ε α)
  | .error a, .error b =>
      if h : a = b then .isTrue (by rw [h])
      else .isFalse (fun hc => h (by cases hc; rfl))
  | .error _, .ok _ => .isFalse (fun hc => by cases hc)
  | .ok _, .error _ => .isFalse (fun hc => by cases hc)
  | .ok a, .ok b =>
      if h : a = b then .isTrue (by rw [h])
      else .isFalse (fun hc => h (by cases hc; rfl))

instance {ε α : Type} [DecidableEq ε] [DecidableEq α] :
    DecidableEq (Except ε α) := Except.decEq

/-- Embed the outcome of a `store` call into the resolution domain of
`storeFromPath`. -/
def liftStoreResult : Except PromiseErr SendPostResult →
    Except PromiseErr StoreOutcomeVal
  | .ok r => .ok (.result r)
  | .error e => .error e

/-- One run of `storeFromPath`: the `store` invocations made and the
outcome of the returned promise. -/
structure StoreFromPathRun where
  storeCalls : List StoreArgs
  outcome : Except PromiseErr StoreOutcomeVal
  deriving DecidableEq, Repr

/-- `storeFromPath(filePath, args, logger)`:
`readFile(filePath).then(file => { args.file = file; this.store(args,
logger) })`.  The `then` callback assigns the read bytes into
`args.file` and invokes `store`, but its body is a block without a
`return`, so the callback itself resolves with `undefined`: the promise
of the inner `store` call is discarded, along with its result or
rejection.  A `readFile` rejection propagates.  `readFile` and the
`store` method are parameters (the tests stub both); the run records
the `store` invocations. -/
def storeFromPath (readFile : String → Except PromiseErr (List Nat))
    (storeFn : StoreArgs → Except PromiseErr SendPostResult)
    (filePath : String) (args : StoreArgs) : StoreFromPathRun :=
  match readFile filePath with
  | .error e => { storeCalls := [], outcome := .error e }
  | .ok file =>
      let args2 := { args with file := FileArg.buf file }
      let _ := storeFn args2
      { storeCalls := [args2], outcome := .ok .undef }

/-! ## Sample values used by concrete instances -/
/-- The client of the test-suites:
`new FBUserFileStoreClient('testServiceSecret', 'testServiceToken',
'testServiceSlug', 'https://userfilestore')`. -/
def testClient : Client :=
  mkClient "testServiceSecret" "testServiceToken" "testServiceSlug"
    "https://userfilestore" Options.empty

/-- A stand-in for the inherited `encryptUserIdAndToken` collaborator. -/
def testEncrypt : String → String → String :=
  fun _ _ => "testEncryptedUserIdAndToken"

/-- Store args with an empty buffer and an empty policy. -/
def sampleStoreArgs : StoreArgs :=
  { userId := "testUserId", userToken := "testUserToken"
    file := .buf [], policy := { max_size := none, expires := none
                                 allowed_types := none } }

/-- A `store` stub resolving with a fingerprinted result. -/
def cxStoreStub : StoreArgs → Except PromiseErr SendPostResult :=
  fun _ => .ok { fingerprint := some (.str "31-x9323s39amdsa"), other := [] }

/-- A `readFile` stub resolving with two bytes. -/
def cxReadFile : String → Except PromiseErr (List Nat) :=
  fun _ => .ok [104, 105]

/-- The string `fetch` resolves with when the transport hands back
exactly the `file` field that `store` sent for byte content `b`
(see `storeRequest`: that field is `b64Encode b` when the file argument
is the buffer `b`): fetch applies `b64Decode` then `utf8Decode`. -/
def storeFetchString (b : List Nat) : List Nat :=
  utf8Decode (b64Decode (b64Encode b))

/-- A policy whose `max_size` is present but `0` (falsy). -/
def polZero : Policy :=
  { max_size := some (.num 0), expires := none, allowed_types := none }

theorem charSextet_sextetChar (n : Nat) (h : n < 64) :
    charSextet (sextetChar n) = some n := by
  have hall : ∀ m : Fin 64, charSextet (sextetChar m.val) = some m.val := by decide
  exact hall ⟨n, h⟩

theorem charSextet_pad : charSextet (Char.ofNat 61) = none := by decide

theorem b64Sextets_cons_sx (n : Nat) (h : n < 64) (rest : List Char) :
    b64Sextets (sextetChar n :: rest) = n :: b64Sextets rest := by
  simp [b64Sextets, List.filterMap_cons, charSextet_sextetChar n h]

theorem b64Sextets_cons_pad (rest : List Char) :
    b64Sextets (Char.ofNat 61 :: rest) = b64Sextets rest := by
  simp [b64Sextets, List.filterMap_cons, charSextet_pad]

theorem b64Sextets_nil : b64Sextets [] = [] := rfl

/-- Decoding inverts encoding on byte lists. -/
theorem b64_roundtrip (bytes : List Nat) (h : ∀ b ∈ bytes, b < 256) :
    b64Decode (b64Encode bytes) = bytes := by
  have hs : (b64Encode bytes).toList = b64EncodeChunks bytes := rfl
  rw [b64Decode, hs]
  induction bytes using b64EncodeChunks.induct with
  | case1 => rfl
  | case2 a =>
      have ha : a < 256 := h a (by simp)
      rw [b64EncodeChunks,
        b64Sextets_cons_sx _ (by omega),
        b64Sextets_cons_sx _ (by omega),
        b64Sextets_cons_pad, b64Sextets_cons_pad, b64Sextets_nil,
        sextetsToBytes]
      congr 1
      omega
  | case3 a b =>
      have ha : a < 256 := h a (by simp)
      have hb : b < 256 := h b (by simp)
      rw [b64EncodeChunks,
        b64Sextets_cons_sx _ (by omega),
        b64Sextets_cons_sx _ (by omega),
        b64Sextets_cons_sx _ (by omega),
        b64Sextets_cons_pad, b64Sextets_nil,
        sextetsToBytes]
      congr 1
      · omega
      · congr 1
        omega
  | case4 a b c rest ih =>
      have ha : a < 256 := h a (by simp)
      have hb : b < 256 := h b (by simp)
      have hc : c < 256 := h c (by simp)
      rw [b64EncodeChunks,
        b64Sextets_cons_sx _ (by omega),
        b64Sextets_cons_sx _ (by omega),
        b64Sextets_cons_sx _ (by omega),
        b64Sextets_cons_sx _ (by omega),
        sextetsToBytes,
        ih (fun x hx => h x (by simp [hx])) rfl]
      simp only [List.cons.injEq, and_true]
      omega

theorem contB_spec {b : Nat} (hb : contB b = true) : 0x80 ≤ b ∧ b ≤ 0xBF := by
  simpa [contB] using hb

theorem lead3Cont_spec {b1 b2 : Nat} (hb : lead3Cont b1 b2 = true) :
    (b1 = 0xE0 ∧ 0xA0 ≤ b2 ∧ b2 ≤ 0xBF) ∨
    (b1 = 0xED ∧ 0x80 ≤ b2 ∧ b2 ≤ 0x9F) ∨
    (b1 ≠ 0xE0 ∧ b1 ≠ 0xED ∧ 0x80 ≤ b2 ∧ b2 ≤ 0xBF) := by
  unfold lead3Cont at hb
  split_ifs at hb with hA hB
  · exact Or.inl ⟨hA, by simpa using hb⟩
  · exact Or.inr (Or.inl ⟨hB, by simpa using hb⟩)
  · exact Or.inr (Or.inr ⟨hA, hB, contB_spec hb⟩)

theorem lead4Cont_spec {b1 b2 : Nat} (hb : lead4Cont b1 b2 = true) :
    (b1 = 0xF0 ∧ 0x90 ≤ b2 ∧ b2 ≤ 0xBF) ∨
    (b1 = 0xF4 ∧ 0x80 ≤ b2 ∧ b2 ≤ 0x8F) ∨
    (b1 ≠ 0xF0 ∧ b1 ≠ 0xF4 ∧ 0x80 ≤ b2 ∧ b2 ≤ 0xBF) := by
  unfold lead4Cont at hb
  split_ifs at hb with hA hB
  · exact Or.inl ⟨hA, by simpa using hb⟩
  · exact Or.inr (Or.inl ⟨hB, by simpa using hb⟩)
  · exact Or.inr (Or.inr ⟨hA, hB, contB_spec hb⟩)

/-! Step equations for `utf8DecodeAux`, one per branch. -/
theorem decAux_nil : utf8DecodeAux [] = ([], true) := by
  rw [utf8DecodeAux.eq_def]

theorem decAux_ascii {b1 : Nat} (h1 : b1 < 0x80) (r : List Nat) :
    utf8DecodeAux (b1 :: r) =
      (b1 :: (utf8DecodeAux r).1, (utf8DecodeAux r).2) := by
  rw [utf8DecodeAux.eq_def]
  simp only []
  rw [if_pos h1]

theorem decAux_two {b1 b2 : Nat} (h1 : ¬ b1 < 0x80)
    (h2 : 0xC2 ≤ b1 ∧ b1 ≤ 0xDF) (hc : contB b2 = true) (r : List Nat) :
    utf8DecodeAux (b1 :: b2 :: r) =
      (((b1 - 0xC0) * 0x40 + (b2 - 0x80)) :: (utf8DecodeAux r).1,
        (utf8DecodeAux r).2) := by
  rw [utf8DecodeAux.eq_def]
  simp only []
  rw [if_neg h1, if_pos h2]
  simp [hc]

theorem decAux_two_badc {b1 b2 : Nat} (h1 : ¬ b1 < 0x80)
    (h2 : 0xC2 ≤ b1 ∧ b1 ≤ 0xDF) (hc : ¬ contB b2 = true) (r : List Nat) :
    utf8DecodeAux (b1 :: b2 :: r) =
      (0xFFFD :: (utf8DecodeAux (b2 :: r)).1, false) := by
  rw [utf8DecodeAux.eq_def]
  simp only []
  rw [if_neg h1, if_pos h2]
  simp [hc]

theorem decAux_two_trunc {b1 : Nat} (h1 : ¬ b1 < 0x80)
    (h2 : 0xC2 ≤ b1 ∧ b1 ≤ 0xDF) :
    utf8DecodeAux [b1] = ([0xFFFD], false) := by
  rw [utf8DecodeAux.eq_def]
  simp only []
  rw [if_neg h1, if_pos h2]

theorem decAux_three {b1 b2 b3 : Nat} (h1 : ¬ b1 < 0x80)
    (h2 : ¬ (0xC2 ≤ b1 ∧ b1 ≤ 0xDF)) (h3 : 0xE0 ≤ b1 ∧ b1 ≤ 0xEF)
    (hl : lead3Cont b1 b2 = true) (hc : contB b3 = true) (r : List Nat) :
    utf8DecodeAux (b1 :: b2 :: b3 :: r) =
      (((b1 - 0xE0) * 0x1000 + (b2 - 0x80) * 0x40 + (b3 - 0x80)) ::
          (utf8DecodeAux r).1,
        (utf8DecodeAux r).2) := by
  rw [utf8DecodeAux.eq_def]
  simp only []
  rw [if_neg h1, if_neg h2, if_pos h3]
  simp [hl, hc]

theorem decAux_three_badc {b1 b2 b3 : Nat} (h1 : ¬ b1 < 0x80)
    (h2 : ¬ (0xC2 ≤ b1 ∧ b1 ≤ 0xDF)) (h3 : 0xE0 ≤ b1 ∧ b1 ≤ 0xEF)
    (hl : lead3Cont b1 b2 = true) (hc : ¬ contB b3 = true) (r : List Nat) :
    utf8DecodeAux (b1 :: b2 :: b3 :: r) =
      (0xFFFD :: (utf8DecodeAux (b3 :: r)).1, false) := by
  rw [utf8DecodeAux.eq_def]
  simp only []
  rw [if_neg h1, if_neg h2, if_pos h3]
  simp [hl, hc]

theorem decAux_three_badl {b1 b2 : Nat} (h1 : ¬ b1 < 0x80)
    (h2 : ¬ (0xC2 ≤ b1 ∧ b1 ≤ 0xDF)) (h3 : 0xE0 ≤ b1 ∧ b1 ≤ 0xEF)
    (hl : ¬ lead3Cont b1 b2 = true) (r : List Nat) :
    utf8DecodeAux (b1 :: b2 :: r) =
      (0xFFFD :: (utf8DecodeAux (b2 :: r)).1, false) := by
  rw [utf8DecodeAux.eq_def]
  simp only []
  rw [if_neg h1, if_neg h2, if_pos h3]
  simp [hl]

theorem decAux_three_trunc1 {b1 : Nat} (h1 : ¬ b1 < 0x80)
    (h2 : ¬ (0xC2 ≤ b1 ∧ b1 ≤ 0xDF)) (h3 : 0xE0 ≤ b1 ∧ b1 ≤ 0xEF) :
    utf8DecodeAux [b1] = ([0xFFFD], false) := by
  rw [utf8DecodeAux.eq_def]
  simp only []
  rw [if_neg h1, if_neg h2, if_pos h3]

theorem decAux_three_trunc2 {b1 b2 : Nat} (h1 : ¬ b1 < 0x80)
    (h2 : ¬ (0xC2 ≤ b1 ∧ b1 ≤ 0xDF)) (h3 : 0xE0 ≤ b1 ∧ b1 ≤ 0xEF)
    (hl : lead3Cont b1 b2 = true) :
    utf8DecodeAux [b1, b2] = ([0xFFFD], false) := by
  rw [utf8DecodeAux.eq_def]
  simp only []
  rw [if_neg h1, if_neg h2, if_pos h3]
  simp [hl]

theorem decAux_four {b1 b2 b3 b4 : Nat} (h1 : ¬ b1 < 0x80)
    (h2 : ¬ (0xC2 ≤ b1 ∧ b1 ≤ 0xDF)) (h3 : ¬ (0xE0 ≤ b1 ∧ b1 ≤ 0xEF))
    (h4 : 0xF0 ≤ b1 ∧ b1 ≤ 0xF4) (hl : lead4Cont b1 b2 = true)
    (hc3 : contB b3 = true) (hc4 : contB b4 = true) (r : List Nat) :
    utf8DecodeAux (b1 :: b2 :: b3 :: b4 :: r) =
      (((b1 - 0xF0) * 0x40000 + (b2 - 0x80) * 0x1000 + (b3 - 0x80) * 0x40 +
          (b4 - 0x80)) :: (utf8DecodeAux r).1,
        (utf8DecodeAux r).2) := by
  rw [utf8DecodeAux.eq_def]
  simp only []
  rw [if_neg h1, if_neg h2, if_neg h3, if_pos h4]
  simp [hl, hc3, hc4]

theorem decAux_four_badc4 {b1 b2 b3 b4 : Nat} (h1 : ¬ b1 < 0x80)
    (h2 : ¬ (0xC2 ≤ b1 ∧ b1 ≤ 0xDF)) (h3 : ¬ (0xE0 ≤ b1 ∧ b1 ≤ 0xEF))
    (h4 : 0xF0 ≤ b1 ∧ b1 ≤ 0xF4) (hl : lead4Cont b1 b2 = true)
    (hc3 : contB b3 = true) (hc4 : ¬ contB b4 = true) (r : List Nat) :
    utf8DecodeAux (b1 :: b2 :: b3 :: b4 :: r) =
      (0xFFFD :: (utf8DecodeAux (b4 :: r)).1, false) := by
  rw [utf8DecodeAux.eq_def]
  simp only []
  rw [if_neg h1, if_neg h2, if_neg h3, if_pos h4]
  simp [hl, hc3, hc4]

theorem decAux_four_badc3 {b1 b2 b3 : Nat} (h1 : ¬ b1 < 0x80)
    (h2 : ¬ (0xC2 ≤ b1 ∧ b1 ≤ 0xDF)) (h3 : ¬ (0xE0 ≤ b1 ∧ b1 ≤ 0xEF))
    (h4 : 0xF0 ≤ b1 ∧ b1 ≤ 0xF4) (hl : lead4Cont b1 b2 = true)
    (hc3 : ¬ contB b3 = true) (r : List Nat) :
    utf8DecodeAux (b1 :: b2 :: b3 :: r) =
      (0xFFFD :: (utf8DecodeAux (b3 :: r)).1, false) := by
  rw [utf8DecodeAux.eq_def]
  simp only []
  rw [if_neg h1, if_neg h2, if_neg h3, if_pos h4]
  simp [hl, hc3]

theorem decAux_four_badl {b1 b2 : Nat} (h1 : ¬ b1 < 0x80)
    (h2 : ¬ (0xC2 ≤ b1 ∧ b1 ≤ 0xDF)) (h3 : ¬ (0xE0 ≤ b1 ∧ b1 ≤ 0xEF))
    (h4 : 0xF0 ≤ b1 ∧ b1 ≤ 0xF4) (hl : ¬ lead4Cont b1 b2 = true)
    (r : List Nat) :
    utf8DecodeAux (b1 :: b2 :: r) =
      (0xFFFD :: (utf8DecodeAux (b2 :: r)).1, false) := by
  rw [utf8DecodeAux.eq_def]
  simp only []
  rw [if_neg h1, if_neg h2, if_neg h3, if_pos h4]
  simp [hl]

theorem decAux_four_trunc1 {b1 : Nat} (h1 : ¬ b1 < 0x80)
    (h2 : ¬ (0xC2 ≤ b1 ∧ b1 ≤ 0xDF)) (h3 : ¬ (0xE0 ≤ b1 ∧ b1 ≤ 0xEF))
    (h4 : 0xF0 ≤ b1 ∧ b1 ≤ 0xF4) :
    utf8DecodeAux [b1] = ([0xFFFD], false) := by
  rw [utf8DecodeAux.eq_def]
  simp only []
  rw [if_neg h1, if_neg h2, if_neg h3, if_pos h4]

theorem decAux_four_trunc2 {b1 b2 : Nat} (h1 : ¬ b1 < 0x80)
    (h2 : ¬ (0xC2 ≤ b1 ∧ b1 ≤ 0xDF)) (h3 : ¬ (0xE0 ≤ b1 ∧ b1 ≤ 0xEF))
    (h4 : 0xF0 ≤ b1 ∧ b1 ≤ 0xF4) (hl : lead4Cont b1 b2 = true) :
    utf8DecodeAux [b1, b2] = ([0xFFFD], false) := by
  rw [utf8DecodeAux.eq_def]
  simp only []
  rw [if_neg h1, if_neg h2, if_neg h3, if_pos h4]
  simp [hl]

theorem decAux_four_trunc3 {b1 b2 b3 : Nat} (h1 : ¬ b1 < 0x80)
    (h2 : ¬ (0xC2 ≤ b1 ∧ b1 ≤ 0xDF)) (h3 : ¬ (0xE0 ≤ b1 ∧ b1 ≤ 0xEF))
    (h4 : 0xF0 ≤ b1 ∧ b1 ≤ 0xF4) (hl : lead4Cont b1 b2 = true)
    (hc3 : contB b3 = true) :
    utf8DecodeAux [b1, b2, b3] = ([0xFFFD], false) := by
  rw [utf8DecodeAux.eq_def]
  simp only []
  rw [if_neg h1, if_neg h2, if_neg h3, if_pos h4]
  simp [hl, hc3]

theorem decAux_badlead {b1 : Nat} (h1 : ¬ b1 < 0x80)
    (h2 : ¬ (0xC2 ≤ b1 ∧ b1 ≤ 0xDF)) (h3 : ¬ (0xE0 ≤ b1 ∧ b1 ≤ 0xEF))
    (h4 : ¬ (0xF0 ≤ b1 ∧ b1 ≤ 0xF4)) (r : List Nat) :
    utf8DecodeAux (b1 :: r) =
      (0xFFFD :: (utf8DecodeAux r).1, false) := by
  rw [utf8DecodeAux.eq_def]
  simp only []
  rw [if_neg h1, if_neg h2, if_neg h3, if_neg h4]

theorem forall_mem_cons_scalar {hd : Nat} {tl : List Nat}
    (hh : isScalar hd = true) (ht : ∀ c ∈ tl, isScalar c = true) :
    ∀ c ∈ hd :: tl, isScalar c = true := by
  intro c hc
  rcases List.mem_cons.mp hc with h | h
  · rw [h]; exact hh
  · exact ht c h

theorem scalar_singleton_FFFD : ∀ c ∈ [0xFFFD], isScalar c = true := by decide

/-- Every value the decoder emits is a Unicode scalar value. -/
theorem utf8DecodeAux_scalar (bytes : List Nat) :
    ∀ c ∈ (utf8DecodeAux bytes).1, isScalar c = true := by
  induction bytes using utf8DecodeAux.induct with
  | case1 =>
      rw [decAux_nil]
      intro c hc
      cases hc
  | case2 b1 r h1 ih =>
      rw [decAux_ascii h1]
      exact forall_mem_cons_scalar (by simp [isScalar]; omega) ih
  | case3 b1 h1 h2 =>
      rw [decAux_two_trunc h1 h2]
      exact scalar_singleton_FFFD
  | case4 b1 h1 h2 b2 r hc ih =>
      have hcs := contB_spec hc
      rw [decAux_two h1 h2 hc]
      exact forall_mem_cons_scalar (by simp [isScalar]; omega) ih
  | case5 b1 h1 h2 b2 r hc ih =>
      rw [decAux_two_badc h1 h2 hc]
      exact forall_mem_cons_scalar (by decide) ih
  | case6 b1 h1 h2 h3 =>
      rw [decAux_three_trunc1 h1 h2 h3]
      exact scalar_singleton_FFFD
  | case7 b1 h1 h2 h3 b2 hl =>
      rw [decAux_three_trunc2 h1 h2 h3 hl]
      exact scalar_singleton_FFFD
  | case8 b1 h1 h2 h3 b2 hl b3 r hc ih =>
      have hls := lead3Cont_spec hl
      have hcs := contB_spec hc
      rw [decAux_three h1 h2 h3 hl hc]
      refine forall_mem_cons_scalar ?_ ih
      simp only [isScalar, decide_eq_true_eq]
      rcases hls with h | h | h <;> omega
  | case9 b1 h1 h2 h3 b2 hl b3 r hc ih =>
      rw [decAux_three_badc h1 h2 h3 hl hc]
      exact forall_mem_cons_scalar (by decide) ih
  | case10 b1 h1 h2 h3 b2 r hl ih =>
      rw [decAux_three_badl h1 h2 h3 hl]
      exact forall_mem_cons_scalar (by decide) ih
  | case11 b1 h1 h2 h3 h4 =>
      rw [decAux_four_trunc1 h1 h2 h3 h4]
      exact scalar_singleton_FFFD
  | case12 b1 h1 h2 h3 h4 b2 hl =>
      rw [decAux_four_trunc2 h1 h2 h3 h4 hl]
      exact scalar_singleton_FFFD
  | case13 b1 h1 h2 h3 h4 b2 hl b3 hc3 =>
      rw [decAux_four_trunc3 h1 h2 h3 h4 hl hc3]
      exact scalar_singleton_FFFD
  | case14 b1 h1 h2 h3 h4 b2 hl b3 hc3 b4 r hc4 ih =>
      have hls := lead4Cont_spec hl
      have hc3s := contB_spec hc3
      have hc4s := contB_spec hc4
      rw [decAux_four h1 h2 h3 h4 hl hc3 hc4]
      refine forall_mem_cons_scalar ?_ ih
      simp only [isScalar, decide_eq_true_eq]
      rcases hls with h | h | h <;> omega
  | case15 b1 h1 h2 h3 h4 b2 hl b3 hc3 b4 r hc4 ih =>
      rw [decAux_four_badc4 h1 h2 h3 h4 hl hc3 hc4]
      exact forall_mem_cons_scalar (by decide) ih
  | case16 b1 h1 h2 h3 h4 b2 hl b3 r hc3 ih =>
      rw [decAux_four_badc3 h1 h2 h3 h4 hl hc3]
      exact forall_mem_cons_scalar (by decide) ih
  | case17 b1 h1 h2 h3 h4 b2 r hl ih =>
      rw [decAux_four_badl h1 h2 h3 h4 hl]
      exact forall_mem_cons_scalar (by decide) ih
  | case18 b1 r h1 h2 h3 h4 ih =>
      rw [decAux_badlead h1 h2 h3 h4]
      exact forall_mem_cons_scalar (by decide) ih

/-- Decoding after encoding restores a scalar-value list (and reports
valid input). -/
theorem decAux_encodeChar {c : Nat} (hs : isScalar c = true) (r : List Nat) :
    utf8DecodeAux (utf8EncodeChar c ++ r) =
      (c :: (utf8DecodeAux r).1, (utf8DecodeAux r).2) := by
  have hs2 : c < 0x110000 ∧ (c < 0xD800 ∨ 0xDFFF < c) := by
    simpa [isScalar] using hs
  obtain ⟨hlt, hsur⟩ := hs2
  by_cases h1 : c < 0x80
  · rw [show utf8EncodeChar c = [c] by simp [utf8EncodeChar, h1]]
    rw [List.cons_append, List.nil_append, decAux_ascii h1]
  · by_cases h2 : c < 0x800
    · rw [show utf8EncodeChar c = [0xC0 + c / 0x40, 0x80 + c % 0x40] by
        simp [utf8EncodeChar, h1, h2]]
      rw [List.cons_append, List.cons_append, List.nil_append]
      rw [decAux_two (by omega) (by constructor <;> omega)
        (by simp [contB]; omega) r]
      have hv : (0xC0 + c / 0x40 - 0xC0) * 0x40 + (0x80 + c % 0x40 - 0x80)
          = c := by omega
      rw [hv]
    · by_cases h3 : c < 0x10000
      · rw [show utf8EncodeChar c =
            [0xE0 + c / 0x1000, 0x80 + c / 0x40 % 0x40, 0x80 + c % 0x40] by
          simp [utf8EncodeChar, h1, h2, h3]]
        rw [List.cons_append, List.cons_append, List.cons_append,
          List.nil_append]
        have hl : lead3Cont (0xE0 + c / 0x1000)
            (0x80 + c / 0x40 % 0x40) = true := by
          unfold lead3Cont contB
          split_ifs with hA hB <;> simp only [decide_eq_true_eq] <;> omega
        rw [decAux_three (by omega) (by omega) (by constructor <;> omega) hl
          (by simp [contB]; omega) r]
        have hv : (0xE0 + c / 0x1000 - 0xE0) * 0x1000 +
            (0x80 + c / 0x40 % 0x40 - 0x80) * 0x40 +
            (0x80 + c % 0x40 - 0x80) = c := by omega
        rw [hv]
      · rw [show utf8EncodeChar c =
            [0xF0 + c / 0x40000, 0x80 + c / 0x1000 % 0x40,
              0x80 + c / 0x40 % 0x40, 0x80 + c % 0x40] by
          simp [utf8EncodeChar, h1, h2, h3]]
        rw [List.cons_append, List.cons_append, List.cons_append,
          List.cons_append, List.nil_append]
        have hl : lead4Cont (0xF0 + c / 0x40000)
            (0x80 + c / 0x1000 % 0x40) = true := by
          unfold lead4Cont contB
          split_ifs with hA hB <;> simp only [decide_eq_true_eq] <;> omega
        rw [decAux_four (by omega) (by omega) (by omega)
          (by constructor <;> omega) hl (by simp [contB]; omega)
          (by simp [contB]; omega) r]
        have hv : (0xF0 + c / 0x40000 - 0xF0) * 0x40000 +
            (0x80 + c / 0x1000 % 0x40 - 0x80) * 0x1000 +
            (0x80 + c / 0x40 % 0x40 - 0x80) * 0x40 +
            (0x80 + c % 0x40 - 0x80) = c := by omega
        rw [hv]

/-- The decoder inverts the encoder on scalar-value lists and reports
the encoding as valid. -/
theorem decAux_encode (cs : List Nat) (h : ∀ c ∈ cs, isScalar c = true) :
    utf8DecodeAux (utf8Encode cs) = (cs, true) := by
  induction cs with
  | nil => exact decAux_nil
  | cons c cs ih =>
      rw [show utf8Encode (c :: cs) = utf8EncodeChar c ++ utf8Encode cs
          from rfl]
      rw [decAux_encodeChar (h c (by simp)) (utf8Encode cs)]
      rw [ih (fun x hx => h x (by simp [hx]))]

/-- A byte list on which re-encoding the decode is the identity must be
valid UTF-8. -/
theorem utf8_roundtrip_id_imp_valid (bytes : List Nat)
    (h : utf8Encode (utf8Decode bytes) = bytes) : validUtf8 bytes = true := by
  have hall := decAux_encode (utf8DecodeAux bytes).1 (utf8DecodeAux_scalar bytes)
  rw [utf8Decode] at h
  rw [h] at hall
  rw [validUtf8, hall]

/-- `storeFetchString` is what `fetch` resolves to when the transport
returns the stored `file` field. -/
theorem storeFetchString_spec (c : Client)
    (encrypt : String → String → String) (args : StoreArgs) (b : List Nat)
    (hfile : args.file = .buf b)
    (sendGet : FetchRequest → Except RequestError SendGetResult)
    (fargs : FetchArgs)
    (hstub : sendGet (fetchRequest c encrypt fargs) =
      .ok ⟨(storeRequest c encrypt args).payload.file⟩) :
    fetch c encrypt sendGet fargs = .ok (storeFetchString b) := by
  rw [fetch, hstub]
  have hf : (storeRequest c encrypt args).payload.file
      = b64Encode (fileToBytes args.file) := rfl
  simp only [hf, hfile, fileToBytes, storeFetchString]

/-- Bytes of the UTF-8 encoding of one scalar value are bytes. -/
theorem utf8EncodeChar_lt256 {c : Nat} (h : c < 0x110000) :
    ∀ b ∈ utf8EncodeChar c, b < 256 := by
  unfold utf8EncodeChar
  split_ifs with h1 h2 h3 <;> intro b hb <;> simp at hb <;> omega

/-- Bytes of the UTF-8 encoding of a scalar-value list are bytes. -/
theorem utf8Encode_lt256 (cs : List Nat)
    (h : ∀ c ∈ cs, isScalar c = true) : ∀ b ∈ utf8Encode cs, b < 256 := by
  induction cs with
  | nil => intro b hb; cases hb
  | cons c cs ih =>
      intro b hb
      rw [show utf8Encode (c :: cs) = utf8EncodeChar c ++ utf8Encode cs
          from rfl] at hb
      rcases List.mem_append.mp hb with h1 | h1
      · have hc := h c (by simp)
        have hlt : c < 0x110000 := by
          simp [isScalar] at hc
          exact hc.1
        exact utf8EncodeChar_lt256 hlt b h1
      · exact ih (fun x hx => h x (by simp [hx])) b h1

/-! ## Claims -/
/-- C1: for every transport result resolved by `sendPost` during
`store`: if it lacks a truthy `fingerprint` field, `store` rejects with
the application error of code `500` and message `ENOFINGERPRINT`; if it
has a truthy `fingerprint`, `store` resolves with that result object
verbatim. -/
theorem store_rejects_without_fingerprint (c : Client)
    (encrypt : String → String → String)
    (sendPost : StoreRequest → Except RequestError SendPostResult)
    (args : StoreArgs) (result : SendPostResult)
    (hres : sendPost (storeRequest c encrypt args) = .ok result) :
    (fieldTruthy result.fingerprint = false →
      store c encrypt sendPost args =
        .error { code := 500, message := "ENOFINGERPRINT" }) ∧
    (fieldTruthy result.fingerprint = true →
      store c encrypt sendPost args = .ok result) := by
  constructor <;> intro h <;> simp [store, hres, h]

/-- Witness for C1: a `sendPost` stub resolving `{}` makes `store`
reject with code `500`, message `ENOFINGERPRINT`. -/
theorem store_rejects_without_fingerprint_w :
    store testClient testEncrypt
      (fun _ => .ok { fingerprint := none, other := [] }) sampleStoreArgs =
      .error { code := 500, message := "ENOFINGERPRINT" } :=
  (store_rejects_without_fingerprint testClient testEncrypt _ sampleStoreArgs
    { fingerprint := none, other := [] } rfl).1 rfl

/-- C2 counterexample: with a `readFile` stub resolving bytes and a
`store` stub resolving a fingerprinted result, the promise returned by
`storeFromPath` does not resolve to the value `store` resolves to — it
resolves to `undefined`. -/
theorem storeFromPath_not_store_result_cx :
    (storeFromPath cxReadFile cxStoreStub "mock file path"
        sampleStoreArgs).outcome ≠
      liftStoreResult
        (cxStoreStub { sampleStoreArgs with file := .buf [104, 105] }) := by
  decide

/-- C2 (amended): `storeFromPath` reads the file at the path, calls
`store` once with `args.file` set to the file's bytes, and resolves
with `undefined` regardless of what `store` resolves or rejects with; a
read failure propagates unchanged. -/
theorem storeFromPath_resolves_undefined
    (readFile : String → Except PromiseErr (List Nat))
    (storeFn : StoreArgs → Except PromiseErr SendPostResult)
    (filePath : String) (args : StoreArgs) :
    (∀ file, readFile filePath = .ok file →
      storeFromPath readFile storeFn filePath args =
        { storeCalls := [{ args with file := .buf file }]
          outcome := .ok .undef }) ∧
    (∀ e, readFile filePath = .error e →
      storeFromPath readFile storeFn filePath args =
        { storeCalls := [], outcome := .error e }) := by
  constructor <;> intro x h <;> simp [storeFromPath, h]

/-- Witness for C2's amended statement at the stubs. -/
theorem storeFromPath_resolves_undefined_w :
    storeFromPath cxReadFile cxStoreStub "mock file path" sampleStoreArgs =
      { storeCalls := [{ sampleStoreArgs with file := .buf [104, 105] }]
        outcome := .ok .undef } :=
  (storeFromPath_resolves_undefined cxReadFile cxStoreStub "mock file path"
    sampleStoreArgs).1 [104, 105] rfl

/-- C3 counterexample: a `max_size` present with value `0` is not sent
as supplied — the outgoing `max_size` is the instance default. -/
theorem store_policy_supplied_cx :
    (normalizePolicy testClient polZero).max_size ≠ polZero.max_size ∧
    (normalizePolicy testClient polZero).max_size =
      some (.num (10 * 1024 * 1024)) := by
  decide

/-- C3 (amended): an omitted `max_size`/`expires` is filled from the
instance default; a present truthy `max_size`/`expires` is sent as
supplied; a present falsy one is replaced by the instance default
(`allowed_types` is governed separately, see C4). -/
theorem store_policy_default_fill (c : Client) (p : Policy) :
    ((p.max_size = none → (normalizePolicy c p).max_size = some c.maxSize) ∧
     (p.expires = none → (normalizePolicy c p).expires = some c.expires)) ∧
    ((fieldTruthy p.max_size = true →
        (normalizePolicy c p).max_size = p.max_size) ∧
     (fieldTruthy p.expires = true →
        (normalizePolicy c p).expires = p.expires)) ∧
    ((fieldTruthy p.max_size = false →
        (normalizePolicy c p).max_size = some c.maxSize) ∧
     (fieldTruthy p.expires = false →
        (normalizePolicy c p).expires = some c.expires)) := by
  obtain ⟨pm, pe, pa⟩ := p
  refine ⟨⟨?_, ?_⟩, ⟨?_, ?_⟩, ⟨?_, ?_⟩⟩ <;> intro h <;>
    simp_all [normalizePolicy, fieldTruthy] <;>
    rcases pa with _ | ⟨t, ts⟩ <;> split_ifs <;> simp_all

/-- Witness for C3's amended statement: an empty policy gets both
defaults. -/
theorem store_policy_default_fill_w :
    (normalizePolicy testClient
      { max_size := none, expires := none, allowed_types := none }).max_size =
      some testClient.maxSize :=
  (store_policy_default_fill testClient
    { max_size := none, expires := none, allowed_types := none }).1.1 rfl

/-- C4: an `allowed_types` present as the empty list is omitted from
the outgoing policy entirely; a non-empty one is sent unchanged. -/
theorem store_empty_allowed_types_omitted (c : Client) (p : Policy) :
    (p.allowed_types = some [] →
      (normalizePolicy c p).allowed_types = none) ∧
    (∀ ts, ts ≠ [] → p.allowed_types = some ts →
      (normalizePolicy c p).allowed_types = some ts) := by
  obtain ⟨pm, pe, pa⟩ := p
  constructor
  · intro h
    simp only at h
    subst h
    simp [normalizePolicy]
    split_ifs <;> simp
  · intro ts hts h
    simp only at h
    subst h
    rcases ts with _ | ⟨t, ts⟩
    · exact absurd rfl hts
    · simp [normalizePolicy]
      split_ifs <;> simp

/-- Witness for C4 at `allowed_types = []`. -/
theorem store_empty_allowed_types_omitted_w :
    (normalizePolicy testClient
      { max_size := none, expires := none
        allowed_types := some [] }).allowed_types = none :=
  (store_empty_allowed_types_omitted testClient
    { max_size := none, expires := none, allowed_types := some [] }).1 rfl

/-- C5: base64-decoding the `file` field of the payload `store` hands
to the transport yields exactly the byte content passed as the file
argument. -/
theorem store_payload_base64_roundtrip (c : Client)
    (encrypt : String → String → String) (args : StoreArgs) (b : List Nat)
    (hfile : args.file = .buf b) (hb : ∀ x ∈ b, x < 256) :
    b64Decode ((storeRequest c encrypt args).payload.file) = b := by
  have hf : (storeRequest c encrypt args).payload.file =
      b64Encode (fileToBytes args.file) := rfl
  rw [hf, hfile]
  exact b64_roundtrip b hb

/-- Witness for C5 at the bytes of `"hello"`. -/
theorem store_payload_base64_roundtrip_w :
    b64Decode ((storeRequest testClient testEncrypt
      { sampleStoreArgs with
        file := .buf [104, 101, 108, 108, 111] }).payload.file) =
      [104, 101, 108, 108, 111] :=
  store_payload_base64_roundtrip testClient testEncrypt _ _ rfl (by decide)

/-- C6: when the transport resolves with a mapping whose `file` field
is the base64 encoding of the UTF-8 bytes of a string `s`, `fetch`
resolves with `s` (strings as scalar-value lists). -/
theorem fetch_decodes_base64 (c : Client)
    (encrypt : String → String → String)
    (sendGet : FetchRequest → Except RequestError SendGetResult)
    (args : FetchArgs) (s : List Nat) (hs : ∀ x ∈ s, isScalar x = true)
    (hstub : sendGet (fetchRequest c encrypt args) =
      .ok ⟨b64Encode (utf8Encode s)⟩) :
    fetch c encrypt sendGet args = .ok s := by
  rw [fetch, hstub]
  simp only []
  rw [b64_roundtrip (utf8Encode s) (utf8Encode_lt256 s hs), utf8Decode,
    decAux_encode s hs]

/-- Witness for C6: a transport stub returning base64 of `"hello"`
makes `fetch` resolve with `"hello"`. -/
theorem fetch_decodes_base64_w :
    fetch testClient testEncrypt
      (fun _ => .ok ⟨b64Encode (utf8Encode [104, 101, 108, 108, 111])⟩)
      { userId := "u", userToken := "t", fingerprint := "f" } =
      .ok [104, 101, 108, 108, 111] :=
  fetch_decodes_base64 testClient testEncrypt _ _ [104, 101, 108, 108, 111]
    (by decide) rfl

/-- C7: construction fails with exactly the error of the first missing
argument in the precedence order secret, token, slug, base URL, with
the stable codes `ENOSERVICESECRET`, `ENOSERVICETOKEN`,
`ENOSERVICESLUG`, `ENOMICROSERVICEURL` and message
"No service secret passed to client" for a missing secret. -/
theorem constructor_missing_arg_errors (s t sl u : Option String) :
    (s = none → validateCtorArgs s t sl u =
      some { code := "ENOSERVICESECRET"
             message := "No service secret passed to client" }) ∧
    (s ≠ none → t = none → validateCtorArgs s t sl u =
      some { code := "ENOSERVICETOKEN"
             message := "No service token passed to client" }) ∧
    (s ≠ none → t ≠ none → sl = none → validateCtorArgs s t sl u =
      some { code := "ENOSERVICESLUG"
             message := "No service slug passed to client" }) ∧
    (s ≠ none → t ≠ none → sl ≠ none → u = none →
      validateCtorArgs s t sl u =
        some { code := "ENOMICROSERVICEURL"
               message := "No microservice url passed to client" }) := by
  refine ⟨?_, ?_, ?_, ?_⟩ <;> intros <;>
    simp_all [validateCtorArgs, Option.isNone_iff_eq_none]

/-- Witness for C7 with no arguments at all: the secret error wins. -/
theorem constructor_missing_arg_errors_w :
    validateCtorArgs none none none none =
      some { code := "ENOSERVICESECRET"
             message := "No service secret passed to client" } :=
  (constructor_missing_arg_errors none none none none).1 rfl

/-- C8 counterexample: a supplied `maxSize` of `0` is not used
verbatim — the instance's `maxSize` becomes the default. -/
theorem constructor_maxSize_verbatim_cx :
    (mkClient "testServiceSecret" "testServiceToken" "testServiceSlug"
      "https://userfilestore"
      { maxSize := some (.num 0), expires := none }).maxSize ≠
      JsVal.num 0 := by
  decide

/-- C8 (amended): an absent `options.maxSize` yields the default
`10 * 1024 * 1024`; a supplied truthy `maxSize` is used verbatim; a
supplied falsy `maxSize` falls back to the default. -/
theorem constructor_maxSize_option (s t sl u : String) (o : Options) :
    (o.maxSize = none →
      (mkClient s t sl u o).maxSize = .num (10 * 1024 * 1024)) ∧
    (∀ v, o.maxSize = some v → v.truthy = true →
      (mkClient s t sl u o).maxSize = v) ∧
    (∀ v, o.maxSize = some v → v.truthy = false →
      (mkClient s t sl u o).maxSize = .num (10 * 1024 * 1024)) := by
  refine ⟨?_, ?_, ?_⟩
  · intro h
    simp [mkClient, jsOr, h, defaultMaxSize]
  · intro v h hv
    simp [mkClient, jsOr, h, hv]
  · intro v h hv
    simp [mkClient, jsOr, h, hv, defaultMaxSize]

/-- Witness for C8's amended statement: no options gives the default. -/
theorem constructor_maxSize_option_w :
    (mkClient "testServiceSecret" "testServiceToken" "testServiceSlug"
      "https://userfilestore" Options.empty).maxSize =
      .num (10 * 1024 * 1024) :=
  (constructor_maxSize_option "testServiceSecret" "testServiceToken"
    "testServiceSlug" "https://userfilestore" Options.empty).1 rfl

/-- C9: a `max_size` or `expires` present with a falsy value is
replaced by the instance default exactly as if absent: the outgoing
policies are equal, and the field carries the instance default. -/
theorem store_policy_falsy_as_absent (c : Client) (p : Policy)
    (v w : JsVal) (hv : v.truthy = false) (hw : w.truthy = false) :
    (normalizePolicy c { p with max_size := some v } =
        normalizePolicy c { p with max_size := none } ∧
      (normalizePolicy c { p with max_size := some v }).max_size =
        some c.maxSize) ∧
    (normalizePolicy c { p with expires := some w } =
        normalizePolicy c { p with expires := none } ∧
      (normalizePolicy c { p with expires := some w }).expires =
        some c.expires) := by
  obtain ⟨pm, pe, pa⟩ := p
  refine ⟨⟨?_, ?_⟩, ⟨?_, ?_⟩⟩ <;>
    simp [normalizePolicy, fieldTruthy, hv, hw] <;>
    rcases pa with _ | ⟨t, ts⟩ <;> split_ifs <;> simp_all

/-- Witness for C9: `max_size: 0` and absence produce the same
outgoing policy. -/
theorem store_policy_falsy_as_absent_w :
    normalizePolicy testClient
      { max_size := some (.num 0), expires := none, allowed_types := none } =
      normalizePolicy testClient
        { max_size := none, expires := none, allowed_types := none } :=
  ((store_policy_falsy_as_absent testClient
    { max_size := none, expires := none, allowed_types := none }
    (.num 0) (.str "") (by decide) (by decide)).1).1

/-- C10: re-encoding the string `fetch` returns restores the stored
byte content only when that content was valid UTF-8; the invalid byte
`0xFF` decodes to a replacement character and is not restored. -/
theorem fetch_utf8_identity_only_on_valid :
    (∀ b, (∀ x ∈ b, x < 256) →
      utf8Encode (storeFetchString b) = b → validUtf8 b = true) ∧
    validUtf8 [0xFF] = false ∧
    utf8Encode (storeFetchString [0xFF]) ≠ [0xFF] := by
  refine ⟨?_, ?_, ?_⟩
  · intro b hb h
    rw [storeFetchString, b64_roundtrip b hb] at h
    exact utf8_roundtrip_id_imp_valid b h
  · rw [validUtf8, decAux_badlead (by omega) (by omega) (by omega) (by omega)]
  · rw [storeFetchString, b64_roundtrip [0xFF] (by decide), utf8Decode,
      decAux_badlead (by omega) (by omega) (by omega) (by omega), decAux_nil]
    decide

/-- Witness for C10's universal part at the valid byte `65`. -/
theorem fetch_utf8_identity_only_on_valid_w :
    validUtf8 [65] = true := by
  have h : utf8Encode (storeFetchString [65]) = [65] := by
    rw [storeFetchString, b64_roundtrip [65] (by decide), utf8Decode,
      decAux_ascii (by omega), decAux_nil]
    decide
  exact fetch_utf8_identity_only_on_valid.1 [65] (by decide) h

end FBUserFileStoreClient
